import Mathlib

/-!
Verification of the scalable corner-template model of the `tqec` repository.

The repository ships only a demonstration notebook (`notebooks/corner.ipynb`)
that exercises the template API (`ScalableCorner`, `LinearFunction`,
`scale_to`, `shape`, `expected_plaquettes_number`, `instantiate`); the
package internals are not part of the repository snapshot.  The definitions
below therefore embed the template engine as described by the repository's
specification, and the theorems settle the specification's testable
properties against that model.
-/

namespace Tqec

/-- Modelled from the spec: the `tqec.templates.scale.LinearFunction` class is
absent from the snapshot.  Spec §3: immutable, attributes `slope` (int) and
`intercept` (int, default 0), with semantic `dimension(k) = slope*k +
intercept`. -/
structure LinearFunction where
  slope : Int
  intercept : Int
deriving Repr, DecidableEq

/-- Modelled from the spec: `dimension(k) = slope*k + intercept` (spec §3,
§4.1). -/
def LinearFunction.dimension (f : LinearFunction) (k : Int) : Int :=
  f.slope * k + f.intercept

/-- Modelled from the spec: the error kinds reported by the template engine
(spec §7).  `InvalidScale` carries the offending scale; `ArityMismatch`
carries the supplied length and the expected length. -/
inductive TemplateError where
  | InvalidScale : Int → TemplateError
  | ArityMismatch : Nat → Nat → TemplateError
deriving Repr, DecidableEq

/-- Modelled from the spec: a rectangular region placement used by the corner
composition (spec §4.3, step 1): an offset and an extent inside the template's
bounding box. -/
structure Rect where
  row : Int
  col : Int
  nRows : Int
  nCols : Int
deriving Repr, DecidableEq

/-- Whether the rectangle covers the cell at row `i`, column `j`. -/
def Rect.containsB (r : Rect) (i j : Int) : Bool :=
  decide (r.row ≤ i ∧ i < r.row + r.nRows ∧ r.col ≤ j ∧ j < r.col + r.nCols)

/-- Two rectangles are disjoint when no cell lies in both. -/
def Rect.Disjoint (a b : Rect) : Prop :=
  ∀ i j : Int, ¬(a.containsB i j = true ∧ b.containsB i j = true)

/-- Modelled from the spec: the `tqec.templates.constructions.corner.ScalableCorner`
class is absent from the snapshot.  Spec §3: a mutable template holding its
current integer scale `k` and the scale function governing its growing
dimensions; `shape` is derived purely from these. -/
structure ScalableCorner where
  f : LinearFunction
  k : Int
deriving Repr, DecidableEq

/-- The scaled dimension of the corner at its current scale. -/
def ScalableCorner.dim (c : ScalableCorner) : Int :=
  c.f.dimension c.k

/-- Modelled from the spec: `shape` is a deterministic function of the current
scale and the scale functions (spec §4.2); both axes of the corner scale, so
the shape is `(dimension, dimension)`. -/
def ScalableCorner.shape (c : ScalableCorner) : Int × Int :=
  (c.dim, c.dim)

/-- Modelled from the spec: the corner geometry is built from a fixed small
number of named regions — two arms extending along each axis plus a constant
size junction (spec §4.3).  With `d` the scaled dimension, the vertical arm
occupies rows `0..d-2` of column `0`, the junction occupies the single cell
`(d-1, 0)`, and the horizontal arm occupies columns `1..d-1` of row `d-1`;
the regions tile the corner without overlaps (spec §3, CornerTemplate
invariant). -/
def ScalableCorner.regions (c : ScalableCorner) : List Rect :=
  [⟨0, 0, c.dim - 1, 1⟩, ⟨c.dim - 1, 0, 1, 1⟩, ⟨c.dim - 1, 1, 1, c.dim - 1⟩]

/-- Modelled from the spec: `expectedPlaquettesNumber` is the count of
distinct plaquette roles the template requires — one per region — constant
per template topology and independent of scale (spec §3, §4.2). -/
def ScalableCorner.expected_plaquettes_number (c : ScalableCorner) : Nat :=
  c.regions.length

/-- Modelled from the spec: `scaleTo(k)` mutates the scale in place, failing
with `InvalidScale` if `k` violates the minimum-scale invariant `k ≥ 1`
(spec §4.2, §8).  The mutation is embedded as a state transformer. -/
def ScalableCorner.scale_to (c : ScalableCorner) (k : Int) :
    Except TemplateError ScalableCorner :=
  if k < 1 then .error (.InvalidScale k) else .ok { c with k := k }

/-- First-match lookup of the cell `(i, j)` among placed regions paired with
their caller-supplied plaquette indices; cells outside every region get the
empty sentinel `0` (spec §4.3, step 3). -/
def lookupCell : List (Rect × Int) → Int → Int → Int
  | [], _, _ => 0
  | (r, v) :: rest, i, j =>
      if r.containsB i j then v else lookupCell rest i j

/-- The value of the output cell at row `i`, column `j` for the corner `c`
instantiated with `ixs`. -/
def ScalableCorner.cellValue (c : ScalableCorner) (ixs : List Int)
    (i j : Nat) : Int :=
  lookupCell (c.regions.zip ixs) (i : Int) (j : Int)

/-- Modelled from the spec: `instantiate` fails with `ArityMismatch` when the
supplied sequence length differs from `expectedPlaquettesNumber()`; otherwise
it allocates a fresh dense array sized to `shape()` and writes each region's
caller-supplied index into the region's cells, leaving the empty sentinel `0`
elsewhere (spec §4.2, §4.3).  The returned pair makes the (absence of)
mutation of the template explicit. -/
def ScalableCorner.instantiate (c : ScalableCorner) (ixs : List Int) :
    Except TemplateError (ScalableCorner × List (List Int)) :=
  if ixs.length ≠ c.expected_plaquettes_number then
    .error (.ArityMismatch ixs.length c.expected_plaquettes_number)
  else
    let d := c.dim.toNat
    .ok (c, (List.range d).map fun i =>
      (List.range d).map fun j => c.cellValue ixs i j)

/-- Applying a whole sequence of `scaleTo` calls, stopping at the first
failure. -/
def ScalableCorner.scaleSeq (c : ScalableCorner) (ks : List Int) :
    Except TemplateError ScalableCorner :=
  ks.foldlM ScalableCorner.scale_to c

/-- C2: `expectedPlaquettesNumber()` is invariant under any sequence of
successful `scaleTo` calls: its value after the sequence equals its value
before it. -/
theorem expected_plaquettes_number_scale_invariant
    (c : ScalableCorner) (ks : List Int) (c' : ScalableCorner)
    (_h : c.scaleSeq ks = .ok c') :
    c'.expected_plaquettes_number = c.expected_plaquettes_number := rfl

/-- Witness for C2: scaling the notebook's corner through the sequence
`[4, 10, 3]` succeeds and leaves `expectedPlaquettesNumber` unchanged. -/
theorem expected_plaquettes_number_scale_invariant_witness :
    (⟨⟨2, 0⟩, 2⟩ : ScalableCorner).scaleSeq [4, 10, 3] = .ok ⟨⟨2, 0⟩, 3⟩ ∧
    (⟨⟨2, 0⟩, 3⟩ : ScalableCorner).expected_plaquettes_number =
      (⟨⟨2, 0⟩, 2⟩ : ScalableCorner).expected_plaquettes_number :=
  ⟨rfl,
   expected_plaquettes_number_scale_invariant ⟨⟨2, 0⟩, 2⟩ [4, 10, 3]
     ⟨⟨2, 0⟩, 3⟩ rfl⟩

/-- C3: for a corner built with `LinearFunction(slope=2, intercept=0)`, the
shape reflects dimension 4 along the scaling axes at scale `k=2`, dimension 8
after `scaleTo(4)`, and dimension 20 after the further `scaleTo(10)` —
matching the notebook's documented progression. -/
theorem corner_shape_progression :
    (⟨⟨2, 0⟩, 2⟩ : ScalableCorner).shape = (4, 4) ∧
    ((⟨⟨2, 0⟩, 2⟩ : ScalableCorner).scale_to 4).map ScalableCorner.shape =
      .ok (8, 8) ∧
    (((⟨⟨2, 0⟩, 2⟩ : ScalableCorner).scale_to 4 >>=
        fun c => c.scale_to 10).map ScalableCorner.shape) = .ok (20, 20) :=
  ⟨rfl, rfl, rfl⟩

/-- C4: `instantiate` fails with `ArityMismatch` if and only if the supplied
index sequence's length differs from `expectedPlaquettesNumber()`; an empty
sequence always fails when `expectedPlaquettesNumber() > 0`, and a sequence of
the correct length never fails. -/
theorem instantiate_arity (c : ScalableCorner) (ixs : List Int) :
    ((∃ a b, c.instantiate ixs = .error (.ArityMismatch a b)) ↔
      ixs.length ≠ c.expected_plaquettes_number) ∧
    (0 < c.expected_plaquettes_number →
      ∃ a b, c.instantiate [] = .error (.ArityMismatch a b)) ∧
    (ixs.length = c.expected_plaquettes_number →
      ∃ p, c.instantiate ixs = .ok p) := by
  refine ⟨?_, ?_, ?_⟩
  · by_cases h : ixs.length ≠ c.expected_plaquettes_number
    · simp [ScalableCorner.instantiate, h]
    · simp [ScalableCorner.instantiate, h]
  · intro _hpos
    exact ⟨0, 3, rfl⟩
  · intro h
    have h' : ¬ ixs.length ≠ c.expected_plaquettes_number := by simpa using h
    simp [ScalableCorner.instantiate, h']

/-- Witness for C4: on the notebook's corner, the empty index list fails with
`ArityMismatch` and the correctly sized index list `[1, 2, 3]` succeeds. -/
theorem instantiate_arity_witness :
    (∃ a b, (⟨⟨2, 0⟩, 2⟩ : ScalableCorner).instantiate [] =
      .error (.ArityMismatch a b)) ∧
    (∃ p, (⟨⟨2, 0⟩, 2⟩ : ScalableCorner).instantiate [1, 2, 3] = .ok p) :=
  ⟨(instantiate_arity ⟨⟨2, 0⟩, 2⟩ [1, 2, 3]).2.1 (by decide),
   (instantiate_arity ⟨⟨2, 0⟩, 2⟩ [1, 2, 3]).2.2 (by decide)⟩

/-- C5: `scaleTo(k)` is idempotent as a state transformer: calling it twice in
a row equals calling it once, so `shape()` and any subsequent `instantiate()`
output — both pure functions of the resulting state — are identical. -/
theorem scale_to_idempotent (c : ScalableCorner) (k : Int) :
    (c.scale_to k >>= fun c2 => c2.scale_to k) = c.scale_to k := by
  by_cases h : k < 1
  · simp [ScalableCorner.scale_to, h]
    rfl
  · simp [ScalableCorner.scale_to, h]
    rfl

/-- C8: `scaleTo(k)` with `k ≤ 0` fails with `InvalidScale` (reporting no new
state, so the caller's template is unchanged), and with `k ≥ 1` it succeeds,
never raising `InvalidScale`. -/
theorem scale_to_invalid_scale (c : ScalableCorner) (k : Int) :
    (k ≤ 0 → c.scale_to k = .error (.InvalidScale k)) ∧
    (1 ≤ k → c.scale_to k = .ok { c with k := k }) := by
  refine ⟨fun h => ?_, fun h => ?_⟩
  · have hk : k < 1 := by omega
    simp [ScalableCorner.scale_to, hk]
  · have hk : ¬ k < 1 := by omega
    simp [ScalableCorner.scale_to, hk]

/-- Witness for C8: on the notebook's corner, `scaleTo(0)` fails with
`InvalidScale 0` and `scaleTo(5)` succeeds. -/
theorem scale_to_invalid_scale_witness :
    (⟨⟨2, 0⟩, 2⟩ : ScalableCorner).scale_to 0 = .error (.InvalidScale 0) ∧
    (⟨⟨2, 0⟩, 2⟩ : ScalableCorner).scale_to 5 = .ok ⟨⟨2, 0⟩, 5⟩ :=
  ⟨(scale_to_invalid_scale ⟨⟨2, 0⟩, 2⟩ 0).1 (by decide),
   (scale_to_invalid_scale ⟨⟨2, 0⟩, 2⟩ 5).2 (by decide)⟩

/-- C9: every operation is deterministic: on equal template states with equal
arguments, `shape`, `expectedPlaquettesNumber`, `scaleTo` and `instantiate`
produce equal results — in particular equal failures. -/
theorem operations_deterministic (c₁ c₂ : ScalableCorner)
    (ixs₁ ixs₂ : List Int) (k₁ k₂ : Int)
    (hc : c₁ = c₂) (hi : ixs₁ = ixs₂) (hk : k₁ = k₂) :
    c₁.shape = c₂.shape ∧
    c₁.expected_plaquettes_number = c₂.expected_plaquettes_number ∧
    c₁.scale_to k₁ = c₂.scale_to k₂ ∧
    c₁.instantiate ixs₁ = c₂.instantiate ixs₂ := by
  subst hc; subst hi; subst hk
  exact ⟨rfl, rfl, rfl, rfl⟩

/-- Witness for C9: evaluated on two equal copies of the notebook's corner. -/
theorem operations_deterministic_witness :
    (⟨⟨2, 0⟩, 2⟩ : ScalableCorner).shape =
      (⟨⟨2, 0⟩, 2⟩ : ScalableCorner).shape ∧
    (⟨⟨2, 0⟩, 2⟩ : ScalableCorner).expected_plaquettes_number =
      (⟨⟨2, 0⟩, 2⟩ : ScalableCorner).expected_plaquettes_number ∧
    (⟨⟨2, 0⟩, 2⟩ : ScalableCorner).scale_to 4 =
      (⟨⟨2, 0⟩, 2⟩ : ScalableCorner).scale_to 4 ∧
    (⟨⟨2, 0⟩, 2⟩ : ScalableCorner).instantiate [1, 2, 3] =
      (⟨⟨2, 0⟩, 2⟩ : ScalableCorner).instantiate [1, 2, 3] :=
  operations_deterministic ⟨⟨2, 0⟩, 2⟩ ⟨⟨2, 0⟩, 2⟩ [1, 2, 3] [1, 2, 3] 4 4
    rfl rfl rfl

/-- C10: `scale_to(k)` succeeds for every `k ≥ 1`, whether `k` is above or
below the current scale, and the resulting state — hence `shape` and any
`instantiate` output — depends only on `k` and the template's scale function,
not on the previous scale history. -/
theorem scale_to_history_free (c₁ c₂ : ScalableCorner) (k : Int)
    (hf : c₁.f = c₂.f) (hk : 1 ≤ k) :
    ∃ d : ScalableCorner, c₁.scale_to k = .ok d ∧ c₂.scale_to k = .ok d := by
  have h : ¬ k < 1 := by omega
  refine ⟨⟨c₂.f, k⟩, ?_, ?_⟩
  · simp [ScalableCorner.scale_to, h, hf]
  · simp [ScalableCorner.scale_to, h]

/-- Witness for C10: scaling down from scale 10 and up from scale 2 to the
common scale 4 reaches the same state. -/
theorem scale_to_history_free_witness :
    ∃ d : ScalableCorner,
      (⟨⟨2, 0⟩, 10⟩ : ScalableCorner).scale_to 4 = .ok d ∧
      (⟨⟨2, 0⟩, 2⟩ : ScalableCorner).scale_to 4 = .ok d :=
  scale_to_history_free ⟨⟨2, 0⟩, 10⟩ ⟨⟨2, 0⟩, 2⟩ 4 rfl (by decide)


/-- C6: for valid scales k₁ < k₂ (with the spec's positive-slope invariant on
the scale function), the shape after scaling to k₂ is component-wise greater
than or equal to the shape after scaling to k₁. -/
theorem shape_monotone (c : ScalableCorner) (k₁ k₂ : Int)
    (c₁ c₂ : ScalableCorner)
    (hs : 0 < c.f.slope) (hlt : k₁ < k₂)
    (h₁ : c.scale_to k₁ = .ok c₁) (h₂ : c.scale_to k₂ = .ok c₂) :
    c₁.shape.1 ≤ c₂.shape.1 ∧ c₁.shape.2 ≤ c₂.shape.2 := by
  unfold ScalableCorner.scale_to at h₁ h₂
  by_cases hk₁ : k₁ < 1
  · simp [hk₁] at h₁
  · have hk₂ : ¬ k₂ < 1 := by omega
    simp only [hk₁, if_false, Except.ok.injEq] at h₁
    simp only [hk₂, if_false, Except.ok.injEq] at h₂
    subst h₁
    subst h₂
    have hmul : c.f.slope * k₁ < c.f.slope * k₂ := mul_lt_mul_of_pos_left hlt hs
    constructor <;>
      simp only [ScalableCorner.shape, ScalableCorner.dim,
        LinearFunction.dimension] <;>
      linarith

/-- Witness for C6: the notebook's corner scaled to 2 and to 5. -/
theorem shape_monotone_witness :
    (⟨⟨2, 0⟩, 2⟩ : ScalableCorner).shape.1 ≤
      (⟨⟨2, 0⟩, 5⟩ : ScalableCorner).shape.1 ∧
    (⟨⟨2, 0⟩, 2⟩ : ScalableCorner).shape.2 ≤
      (⟨⟨2, 0⟩, 5⟩ : ScalableCorner).shape.2 :=
  shape_monotone ⟨⟨2, 0⟩, 2⟩ 2 5 ⟨⟨2, 0⟩, 2⟩ ⟨⟨2, 0⟩, 5⟩
    (by decide) (by decide) rfl rfl

/-- C7: for a correctly sized index sequence, `instantiate` returns the
template state unchanged — scale, scale function, `expectedPlaquettesNumber`
and `shape` are exactly those of the input — together with the freshly built
output array; the state holds no array storage at all, so the returned array
shares nothing with the template or with any other call's result. -/
theorem instantiate_frame (c : ScalableCorner) (ixs : List Int)
    (hlen : ixs.length = c.expected_plaquettes_number) :
    ∃ arr : List (List Int), c.instantiate ixs = .ok (c, arr) := by
  have h : ¬ ixs.length ≠ c.expected_plaquettes_number := by
    simpa using hlen
  unfold ScalableCorner.instantiate
  rw [if_neg h]
  exact ⟨_, rfl⟩

/-- Witness for C7: evaluated on the notebook's corner with indices
`[1, 2, 3]`. -/
theorem instantiate_frame_witness :
    ∃ arr : List (List Int),
      (⟨⟨2, 0⟩, 2⟩ : ScalableCorner).instantiate [1, 2, 3] =
        .ok (⟨⟨2, 0⟩, 2⟩, arr) :=
  instantiate_frame ⟨⟨2, 0⟩, 2⟩ [1, 2, 3] rfl

/-- C1: at every scale `k ≥ 1` (with the spec's invariants `slope ≥ 1`,
`intercept ≥ 0` on the scale function) and for every index sequence of the
expected length, `instantiate` succeeds without modifying the template and
returns an array whose dimensions equal `shape()`, in which every cell holds
either one of the supplied plaquette indices or the empty sentinel `0`, and
each supplied index appears at exactly the positions its role's region
occupies.  In particular this covers the notebook's run at `k = 2500` with
slope 2 and indices `1..expectedPlaquettesNumber`. -/
theorem instantiate_correct (c : ScalableCorner) (ixs : List Int)
    (hk : 1 ≤ c.k) (hs : 1 ≤ c.f.slope) (hb : 0 ≤ c.f.intercept)
    (hlen : ixs.length = c.expected_plaquettes_number) :
    ∃ arr : List (List Int),
      c.instantiate ixs = .ok (c, arr) ∧
      (arr.length : Int) = c.shape.1 ∧
      (∀ row ∈ arr, (row.length : Int) = c.shape.2) ∧
      (∀ row ∈ arr, ∀ v ∈ row, v ∈ ixs ∨ v = 0) ∧
      (∀ n : Nat, n < c.expected_plaquettes_number → ∀ i j : Nat,
        (c.regions.getD n ⟨0, 0, 0, 0⟩).containsB i j = true →
        i < arr.length ∧ j < (arr.getD i []).length ∧
        (arr.getD i []).getD j 0 = ixs.getD n 0) := by
  have hd : 1 ≤ c.dim := by
    unfold ScalableCorner.dim LinearFunction.dimension
    nlinarith
  obtain ⟨x₀, x₁, x₂, rfl⟩ : ∃ a b d, ixs = [a, b, d] := by
    have h3 : ixs.length = 3 := hlen
    rcases ixs with _ | ⟨a, _ | ⟨b, _ | ⟨d, _ | ⟨e, t⟩⟩⟩⟩
    · simp at h3
    · simp at h3
    · simp at h3
    · exact ⟨a, b, d, rfl⟩
    · simp at h3
  refine ⟨_, rfl, ?_, ?_, ?_, ?_⟩
  · simp [ScalableCorner.shape]
    omega
  · intro row hrow
    rw [List.mem_map] at hrow
    obtain ⟨i, _, rfl⟩ := hrow
    simp [ScalableCorner.shape]
    omega
  · intro row hrow v hv
    rw [List.mem_map] at hrow
    obtain ⟨i, _, rfl⟩ := hrow
    rw [List.mem_map] at hv
    obtain ⟨j, _, rfl⟩ := hv
    unfold ScalableCorner.cellValue ScalableCorner.regions
    simp only [List.zip_cons_cons, List.zip_nil_right, lookupCell]
    split_ifs <;> simp
  · intro n hn i j hcont
    have hn3 : n < 3 := hn
    have hget : ∀ a : Nat, a < c.dim.toNat →
        ((List.range c.dim.toNat).map fun i =>
          (List.range c.dim.toNat).map fun j =>
            c.cellValue [x₀, x₁, x₂] i j).getD a [] =
        (List.range c.dim.toNat).map fun j => c.cellValue [x₀, x₁, x₂] a j := by
      intro a ha
      have ha2 : a < ((List.range c.dim.toNat).map fun i =>
          (List.range c.dim.toNat).map fun j =>
            c.cellValue [x₀, x₁, x₂] i j).length := by simpa using ha
      rw [List.getD_eq_getElem _ _ ha2, List.getElem_map, List.getElem_range]
    have hget2 : ∀ a b : Nat, b < c.dim.toNat →
        ((List.range c.dim.toNat).map fun j =>
          c.cellValue [x₀, x₁, x₂] a j).getD b 0 =
        c.cellValue [x₀, x₁, x₂] a b := by
      intro a b hb
      have hb2 : b < ((List.range c.dim.toNat).map fun j =>
          c.cellValue [x₀, x₁, x₂] a j).length := by simpa using hb
      rw [List.getD_eq_getElem _ _ hb2, List.getElem_map, List.getElem_range]
    interval_cases n
    · rw [show c.regions.getD 0 ⟨0, 0, 0, 0⟩ = ⟨0, 0, c.dim - 1, 1⟩ from rfl] at hcont
      simp only [Rect.containsB, decide_eq_true_eq] at hcont
      have hi : i < c.dim.toNat := by omega
      have hj : j < c.dim.toNat := by omega
      refine ⟨by simpa using hi, ?_, ?_⟩
      · rw [hget i hi]
        simpa using hj
      · rw [hget i hi, hget2 i j hj]
        unfold ScalableCorner.cellValue ScalableCorner.regions
        simp only [List.zip_cons_cons, List.zip_nil_right, lookupCell]
        rw [if_pos]
        · rfl
        · simp only [Rect.containsB, decide_eq_true_eq]
          omega
    · rw [show c.regions.getD 1 ⟨0, 0, 0, 0⟩ = ⟨c.dim - 1, 0, 1, 1⟩ from rfl] at hcont
      simp only [Rect.containsB, decide_eq_true_eq] at hcont
      have hi : i < c.dim.toNat := by omega
      have hj : j < c.dim.toNat := by omega
      refine ⟨by simpa using hi, ?_, ?_⟩
      · rw [hget i hi]
        simpa using hj
      · rw [hget i hi, hget2 i j hj]
        unfold ScalableCorner.cellValue ScalableCorner.regions
        simp only [List.zip_cons_cons, List.zip_nil_right, lookupCell]
        rw [if_neg, if_pos]
        · rfl
        · simp only [Rect.containsB, decide_eq_true_eq]
          omega
        · simp only [Rect.containsB, decide_eq_true_eq]
          intro hcon0
          omega
    · rw [show c.regions.getD 2 ⟨0, 0, 0, 0⟩ = ⟨c.dim - 1, 1, 1, c.dim - 1⟩ from rfl] at hcont
      simp only [Rect.containsB, decide_eq_true_eq] at hcont
      have hi : i < c.dim.toNat := by omega
      have hj : j < c.dim.toNat := by omega
      refine ⟨by simpa using hi, ?_, ?_⟩
      · rw [hget i hi]
        simpa using hj
      · rw [hget i hi, hget2 i j hj]
        unfold ScalableCorner.cellValue ScalableCorner.regions
        simp only [List.zip_cons_cons, List.zip_nil_right, lookupCell]
        rw [if_neg, if_neg, if_pos]
        · rfl
        · simp only [Rect.containsB, decide_eq_true_eq]
          omega
        · simp only [Rect.containsB, decide_eq_true_eq]
          intro hcon1
          omega
        · simp only [Rect.containsB, decide_eq_true_eq]
          intro hcon0
          omega

/-- Witness for C1: the notebook's large-scale run, slope 2 at scale 2500 with
indices `[1, 2, 3] = [1..expectedPlaquettesNumber]`. -/
theorem instantiate_correct_witness :
    ∃ arr : List (List Int),
      (⟨⟨2, 0⟩, 2500⟩ : ScalableCorner).instantiate [1, 2, 3] =
        .ok (⟨⟨2, 0⟩, 2500⟩, arr) ∧
      (arr.length : Int) = (⟨⟨2, 0⟩, 2500⟩ : ScalableCorner).shape.1 ∧
      (∀ row ∈ arr,
        (row.length : Int) = (⟨⟨2, 0⟩, 2500⟩ : ScalableCorner).shape.2) ∧
      (∀ row ∈ arr, ∀ v ∈ row, v ∈ ([1, 2, 3] : List Int) ∨ v = 0) ∧
      (∀ n : Nat,
        n < (⟨⟨2, 0⟩, 2500⟩ : ScalableCorner).expected_plaquettes_number →
        ∀ i j : Nat,
        ((⟨⟨2, 0⟩, 2500⟩ : ScalableCorner).regions.getD n
          ⟨0, 0, 0, 0⟩).containsB i j = true →
        i < arr.length ∧ j < (arr.getD i []).length ∧
        (arr.getD i []).getD j 0 = ([1, 2, 3] : List Int).getD n 0) :=
  instantiate_correct ⟨⟨2, 0⟩, 2500⟩ [1, 2, 3]
    (by decide) (by decide) (by decide) rfl

end Tqec
